import Mathlib

/-!
# Verification of the findash mock backend core

Shallow embedding of the repository's deterministic mock-data generator
(`SwedishMockDataGenerator`), its BAS reference tables, and the in-memory
query engine (`MockTransactionApiService`), together with proofs and
refutations of the stated behavioural properties.

Conventions of the embedding:
* JavaScript numbers are embedded as exact rationals (`ℚ`).  Every theorem
  below depends only on integer-valued results and order comparisons whose
  margins are far wider than binary64 rounding error, so the exact-rational
  reading agrees with the host arithmetic on all inputs the theorems touch.
* JavaScript `%` on integers is truncated remainder, i.e. `Int.tmod`.
* `Math.floor` is `Int.floor`, `Math.round` is `fun q => ⌊q + 1/2⌋`
  (round half towards +∞), and the implicit `ToIntegerOrInfinity`
  conversion of array indices truncates towards zero.
* `uuidv4()` and the wall clock are ambient effects; they are passed in
  explicitly as an environment (`GenEnv`): a stream of uuid strings, the
  current ISO timestamp and the current year, exactly the values the
  corresponding call of the source would observe.
* Calendar dates `"YYYY-MM-DD"` are represented by their day number since
  1970-01-01 where a single day value is needed (`Transaction.date`), and
  by real strings where the source validates string shape.
-/

namespace Findash

/-! ## BAS reference tables (`src/frontend/src/types/bas-types.ts`) -/

/-- `enum BASClass` with numeric values 1–8. -/
inductive BASClass where
  | ASSETS
  | LIABILITIES
  | EQUITY
  | REVENUE
  | COST_OF_SALES
  | OPERATING_EXPENSES
  | FINANCIAL_ITEMS
  | EXTRAORDINARY_ITEMS
  deriving DecidableEq, Repr

/-- The numeric value of the TypeScript enum member. -/
def BASClass.toInt : BASClass → ℤ
  | .ASSETS => 1
  | .LIABILITIES => 2
  | .EQUITY => 3
  | .REVENUE => 4
  | .COST_OF_SALES => 5
  | .OPERATING_EXPENSES => 6
  | .FINANCIAL_ITEMS => 7
  | .EXTRAORDINARY_ITEMS => 8

/-- One entry of `BAS_CLASS_INFO` (the fields the proofs consult). -/
structure BASClassInfo where
  swedishName : String
  englishName : String
  rangeMin : ℤ
  rangeMax : ℤ
  deriving DecidableEq, Repr

/-- `BAS_CLASS_INFO`: class → names and 4-digit account-number range. -/
def BAS_CLASS_INFO : BASClass → BASClassInfo
  | .ASSETS => ⟨"Tillgångar", "Assets", 1000, 1999⟩
  | .LIABILITIES => ⟨"Skulder", "Liabilities", 2000, 2999⟩
  | .EQUITY => ⟨"Eget kapital", "Equity", 3000, 3999⟩
  | .REVENUE => ⟨"Intäkter", "Revenue", 4000, 4999⟩
  | .COST_OF_SALES => ⟨"Kostnad för sålda varor", "Cost of Sales", 5000, 5999⟩
  | .OPERATING_EXPENSES => ⟨"Rörelsekostnader", "Operating Expenses", 6000, 6999⟩
  | .FINANCIAL_ITEMS => ⟨"Finansiella poster", "Financial Items", 7000, 7999⟩
  | .EXTRAORDINARY_ITEMS => ⟨"Extraordinära poster", "Extraordinary Items", 8000, 8999⟩

/-- `SWEDISH_VAT_RATES = [0, 6, 12, 25]`. -/
def SWEDISH_VAT_RATES : List ℚ := [0, 6, 12, 25]

/-! ## JavaScript numeric and string primitives -/

/-- `Math.floor`. -/
def jsFloor (q : ℚ) : ℤ := ⌊q⌋

/-- `Math.round`: round half towards positive infinity. -/
def jsRound (q : ℚ) : ℤ := ⌊q + 1 / 2⌋

/-- `ToIntegerOrInfinity` (used by `Array.prototype.slice` and the `Date`
constructor): truncation towards zero. -/
def jsTrunc (q : ℚ) : ℤ := if q < 0 then -⌊-q⌋ else ⌊q⌋

/-- `parseInt(s, 10)`: optional sign followed by leading decimal digits;
`none` models `NaN`.  (Leading whitespace never occurs in the strings the
repository feeds it.) -/
def jsParseInt10 (s : String) : Option ℤ :=
  let core : List Char → Option ℤ := fun cs =>
    let digits := cs.takeWhile Char.isDigit
    if digits.isEmpty then none
    else some (digits.foldl (fun acc c => acc * 10 + (c.toNat - 48)) (0 : ℤ))
  match s.toList with
  | '-' :: rest => (core rest).map Neg.neg
  | '+' :: rest => core rest
  | cs => core cs

/-- Does `pat` occur as a prefix of `l`? -/
def charsStartWith : List Char → List Char → Bool
  | [], _ => true
  | _ :: _, [] => false
  | p :: ps, c :: cs => p = c && charsStartWith ps cs

/-- Does `pat` occur as a contiguous sublist of `l`? -/
def charsContain (pat : List Char) : List Char → Bool
  | [] => pat.isEmpty
  | c :: cs => charsStartWith pat (c :: cs) || charsContain pat cs

/-- `String.prototype.includes` (`hay.includes(needle)`), as used by the
free-text search filter. -/
def jsIncludes (hay needle : String) : Bool :=
  charsContain needle.toList hay.toList

/-- `isValidBASAccountNumber` from `bas-types.ts`: `parseInt` must succeed,
the string must have length 4, and the number must lie in the class range. -/
def isValidBASAccountNumber (accountNumber : String) (basClass : BASClass) : Bool :=
  match jsParseInt10 accountNumber with
  | none => false
  | some num =>
    if accountNumber.length ≠ 4 then false
    else
      let info := BAS_CLASS_INFO basClass
      decide (info.rangeMin ≤ num ∧ num ≤ info.rangeMax)

/-! ## Calendar dates

`"YYYY-MM-DD"` strings are parsed by the host `Date` as UTC midnight;
the embedding maps a valid calendar date to its day number since
1970-01-01 (Gregorian, proleptic), times `86400000` for milliseconds. -/

def isLeapYear (y : ℤ) : Bool :=
  (y % 4 = 0 ∧ y % 100 ≠ 0) ∨ y % 400 = 0

def daysInMonth (y m : ℤ) : ℤ :=
  if m = 2 then (if isLeapYear y then 29 else 28)
  else if m = 4 ∨ m = 6 ∨ m = 9 ∨ m = 11 then 30
  else 31

/-- Day number since 1970-01-01 of a Gregorian calendar date
(`days_from_civil`). -/
def civilToDays (y m d : ℤ) : ℤ :=
  let y' := if m ≤ 2 then y - 1 else y
  let era := (if 0 ≤ y' then y' else y' - 399) / 400
  let yoe := y' - era * 400
  let mp := (m + 9) % 12
  let doy := (153 * mp + 2) / 5 + d - 1
  let doe := yoe * 365 + yoe / 4 - yoe / 100 + doy
  era * 146097 + doe - 719468

/-- Does the string match `/^\d{4}-\d{2}-\d{2}$/`?  If so, return the
numeric year, month, day. -/
def dateShape (s : String) : Option (ℤ × ℤ × ℤ) :=
  match s.toList with
  | [y1, y2, y3, y4, '-', m1, m2, '-', d1, d2] =>
    if [y1, y2, y3, y4, m1, m2, d1, d2].all Char.isDigit then
      let num : List Char → ℤ := fun cs =>
        cs.foldl (fun acc c => acc * 10 + ((c.toNat : ℤ) - 48)) 0
      some (num [y1, y2, y3, y4], num [m1, m2], num [d1, d2])
    else none
  | _ => none

/-- Is `(y, m, d)` a real proleptic-Gregorian calendar date?  The host's
ISO-format `Date` parser rejects anything else (`Invalid Date`). -/
def calendarValid (y m d : ℤ) : Bool :=
  1 ≤ m ∧ m ≤ 12 ∧ 1 ≤ d ∧ d ≤ daysInMonth y m

/-- `new Date(s).getTime()` for the strings the service feeds it:
an ISO `YYYY-MM-DD` string parses to UTC midnight of that calendar date;
any other input of the repository yields `NaN` (`none`).  (Host-specific
fallback parsing of non-ISO shapes is not modelled; no theorem relies
on it.) -/
def jsDateParseMs (s : String) : Option ℤ :=
  match dateShape s with
  | some (y, m, d) => if calendarValid y m d then some (civilToDays y m d * 86400000) else none
  | none => none

/-- `isValidDateString` from `api-types.ts`:
regex check, then `new Date(dateStr).toISOString().substr(0,10) === dateStr`.
For a regex-shaped but calendar-invalid string the parse yields an
`Invalid Date` and `toISOString()` throws a `RangeError`, which this
embedding surfaces as `Except.error`.  For a shaped valid date the
round-trip succeeds (UTC midnight formats back to the same ten
characters). -/
def isValidDateString (s : String) : Except String Bool :=
  match dateShape s with
  | none => .ok false
  | some (y, m, d) =>
    if calendarValid y m d then .ok true
    else .error "RangeError: Invalid time value"

/-! ## Data model (`transaction-types.ts`, `account-types.ts`) -/

/-- `'DEBIT' | 'CREDIT'`. -/
inductive DC where
  | DEBIT
  | CREDIT
  deriving DecidableEq, Repr

/-- A JavaScript number that may be `NaN` (the `vatAmount` computation can
produce `NaN` when the VAT-rate draw yields `undefined`). -/
inductive JsNum where
  | int (z : ℤ)
  | nan
  deriving DecidableEq, Repr

/-- `Account` as constructed by the generator.  The optional
`parentAccountId` is never set by the generator and is omitted. -/
structure Account where
  id : String
  accountNumber : String
  name : String
  nameEnglish : String
  basClass : BASClass
  basDescription : String
  isActive : Bool
  createdAt : String
  deriving DecidableEq, Repr

/-- `Transaction` as constructed by the generator.  `date` is the day
number since 1970-01-01 encoded by the source's `"YYYY-MM-DD"` string
(the two are in bijection on the generated range).  `account` and
`reference` are always populated by the generator, so they are modelled
as mandatory; the query engine dereferences them unconditionally. -/
structure Transaction where
  id : String
  date : ℤ
  description : String
  amount : ℤ
  currency : String
  accountId : String
  account : Account
  basClass : BASClass
  accountNumber : String
  debitCredit : DC
  vatAmount : Option JsNum
  vatRate : Option ℚ
  reference : String
  createdAt : String
  updatedAt : String
  deriving DecidableEq, Repr

/-! ## Generator (`SwedishMockDataGenerator`, `src/unnamed/part_007`) -/

/-- `MockDataConfig`.  The date-range bounds are the `getTime()` values of
the two `Date` objects (milliseconds since epoch).  `datasetSize` is the
number of loop iterations `for (i = 0; i < datasetSize; i++)` performs. -/
structure MockDataConfig where
  datasetSize : ℕ
  dateRangeStartMs : ℤ
  dateRangeEndMs : ℤ
  includeVAT : Bool
  seed : Option ℤ
  deriving Repr

/-- The ambient effects a generator run observes: the successive results
of `uuidv4()` and the wall clock (`new Date().toISOString()` and
`new Date().getFullYear()`). -/
structure GenEnv where
  uuids : ℕ → String
  nowIso : String
  nowYear : ℤ

/-- Mutable generator state: the LCG state `current` and how many uuids
have been drawn. -/
structure GenState where
  rand : ℤ
  uuidIdx : ℕ
  deriving DecidableEq, Repr

/-- One step of `createSeededRandom`'s linear congruential recurrence:
`current = (current * 9301 + 49297) % 233280` with JavaScript's truncated
remainder. -/
def lcgStep (s : ℤ) : ℤ := (s * 9301 + 49297).tmod 233280

/-- The LCG state after `n` steps from `seed`. -/
def lcgState (seed : ℤ) : ℕ → ℤ
  | 0 => seed
  | n + 1 => lcgStep (lcgState seed n)

/-- The `n`-th float emitted by `createSeededRandom(seed)` (0-indexed):
`current / 233280` after the `n+1`-st state update. -/
def lcgValue (seed : ℤ) (n : ℕ) : ℚ := (lcgState seed (n + 1) : ℚ) / 233280

/-- `this.random()`: advance the LCG and emit `current / 233280`. -/
def nextRandom (st : GenState) : ℚ × GenState :=
  let s := lcgStep st.rand
  ((s : ℚ) / 233280, { st with rand := s })

/-- `uuidv4()`: the next uuid of the observed stream. -/
def nextUuid (env : GenEnv) (st : GenState) : String × GenState :=
  (env.uuids st.uuidIdx, { st with uuidIdx := st.uuidIdx + 1 })

/-- `createSeededRandom(config.seed || 42)`: seed `0` and absent seed both
fall back to `42`. -/
def initialGenState (cfg : MockDataConfig) : GenState :=
  ⟨match cfg.seed with
   | none => 42
   | some s => if s = 0 then 42 else s, 0⟩

/-- `randomChoice`: `array[Math.floor(this.random() * array.length)]`;
`none` models the `undefined` produced by an out-of-bounds index (empty
array, or a negative float from a negative LCG state). -/
def randomChoice (l : List α) (st : GenState) : Option α × GenState :=
  let (r, st') := nextRandom st
  let idx : ℤ := ⌊r * l.length⌋
  (if h : 0 ≤ idx ∧ idx.toNat < l.length then some (l.get ⟨idx.toNat, h.2⟩) else none, st')

/-- `getBASDescription`. -/
def getBASDescription (c : BASClass) : String :=
  match c with
  | .ASSETS => "Tillgångar"
  | .LIABILITIES => "Skulder"
  | .EQUITY => "Eget kapital"
  | .REVENUE => "Intäkter"
  | .COST_OF_SALES => "Kostnad för sålda varor"
  | .OPERATING_EXPENSES => "Rörelsekostnader"
  | .FINANCIAL_ITEMS => "Finansiella poster"
  | .EXTRAORDINARY_ITEMS => "Extraordinära poster"

/-- One entry of `getSwedishBaseAccounts`. -/
structure BaseAccount where
  accountNumber : String
  name : String
  nameEnglish : String
  basClass : BASClass
  deriving DecidableEq, Repr

/-- `getSwedishBaseAccounts`: the fixed 15-entry seed chart of accounts. -/
def getSwedishBaseAccounts : List BaseAccount :=
  [⟨"1220", "Inventarier och verktyg", "Equipment and Tools", .ASSETS⟩,
   ⟨"1510", "Kundfordringar", "Accounts Receivable", .ASSETS⟩,
   ⟨"1910", "Kassa", "Cash", .ASSETS⟩,
   ⟨"1930", "Företagskonto", "Business Account", .ASSETS⟩,
   ⟨"2440", "Leverantörsskulder", "Accounts Payable", .LIABILITIES⟩,
   ⟨"2610", "Utgående moms", "VAT Payable", .LIABILITIES⟩,
   ⟨"2640", "Ingående moms", "VAT Receivable", .LIABILITIES⟩,
   ⟨"3000", "Eget kapital", "Equity", .EQUITY⟩,
   ⟨"3010", "Försäljning varor", "Sales of Goods", .REVENUE⟩,
   ⟨"3040", "Försäljning tjänster", "Sales of Services", .REVENUE⟩,
   ⟨"4010", "Inköp varor", "Purchase of Goods", .COST_OF_SALES⟩,
   ⟨"6110", "Kontorsmaterial", "Office Supplies", .OPERATING_EXPENSES⟩,
   ⟨"6210", "Telefon", "Telephone", .OPERATING_EXPENSES⟩,
   ⟨"6570", "Bankkostnader", "Bank Charges", .OPERATING_EXPENSES⟩,
   ⟨"8310", "Ränteintäkter", "Interest Income", .FINANCIAL_ITEMS⟩,
   ⟨"8410", "Räntekostnader", "Interest Expenses", .FINANCIAL_ITEMS⟩]

/-- `generateAccounts()`: map every base account to a full `Account`
record; consumes no randomness, one uuid per account, fixed creation
timestamp `new Date('2024-01-01').toISOString()`. -/
def generateAccounts (env : GenEnv) : List Account :=
  getSwedishBaseAccounts.enum.map fun (i, b) =>
    { id := env.uuids i
      accountNumber := b.accountNumber
      name := b.name
      nameEnglish := b.nameEnglish
      basClass := b.basClass
      basDescription := getBASDescription b.basClass
      isActive := true
      createdAt := "2024-01-01T00:00:00.000Z" }

/-- `randomDateInRange`: `start + random() * (end - start)` in ms. -/
def randomDateInRange (cfg : MockDataConfig) (st : GenState) : ℚ × GenState :=
  let (r, st') := nextRandom st
  ((cfg.dateRangeStartMs : ℚ) + r * ((cfg.dateRangeEndMs : ℚ) - cfg.dateRangeStartMs), st')

/-- `generateRealisticAmount`: class-dependent band, `Math.round`ed to
integer öre.  (The TypeScript `default` branch is unreachable for the
8-valued enum.) -/
def generateRealisticAmount (basClass : BASClass) (st : GenState) : ℤ × GenState :=
  let (r, st') := nextRandom st
  let baseAmount : ℚ :=
    match basClass with
    | .ASSETS => 50000 + r * 500000
    | .LIABILITIES => 10000 + r * 200000
    | .EQUITY => 100000 + r * 1000000
    | .REVENUE => 5000 + r * 100000
    | .COST_OF_SALES => 3000 + r * 50000
    | .OPERATING_EXPENSES => 1000 + r * 25000
    | .FINANCIAL_ITEMS => 500 + r * 10000
    | .EXTRAORDINARY_ITEMS => 10000 + r * 500000
  (jsRound baseAmount, st')

/-- `getSwedishDescriptions` (the `default` branch is unreachable). -/
def getSwedishDescriptions (c : BASClass) : List String :=
  match c with
  | .ASSETS =>
    ["Inköp av inventarier", "Datorutrustning", "Kontorsmöbler", "Fordon",
     "Maskiner och verktyg"]
  | .LIABILITIES =>
    ["Leverantörsfaktura", "Hyra lokaler", "Lån från bank", "Kreditkort",
     "Skatteskuld"]
  | .EQUITY =>
    ["Aktiekapital", "Kapitaltillskott", "Balanserat resultat", "Reservfond"]
  | .REVENUE =>
    ["Försäljning av varor", "Konsulttjänster", "Licensintäkter", "Uthyrning",
     "Provisioner"]
  | .COST_OF_SALES =>
    ["Inköp av råvaror", "Frakt och transport", "Produktionskostnader",
     "Varulager"]
  | .OPERATING_EXPENSES =>
    ["Kontorshyra", "Telefon och internet", "Marknadsföring", "Försäkringar",
     "Revision och juridik", "Bankkostnader", "Kontorsmaterial"]
  | .FINANCIAL_ITEMS =>
    ["Ränteintäkter", "Räntekostnader", "Valutakursvinst", "Valutakursförlust"]
  | .EXTRAORDINARY_ITEMS =>
    ["Försäljning av anläggningstillgång", "Extraordinär kostnad",
     "Skadeersättning"]

/-- `getSwedishCompanies`. -/
def getSwedishCompanies : List String :=
  ["Svensk Handel AB", "Malmö Teknik HB", "Stockholm Konsult AB",
   "Göteborg Transport AB", "Nordic Services AB", "Scandinavian Solutions HB",
   "Uppsala Innovation AB", "Västerås Utveckling AB", "Örebro Business AB",
   "Linköping Tech HB", "Karlstad Handel AB", "Sundsvall Export AB",
   "Umeå Digital AB", "Luleå Logistik HB", "Kiruna Mining AB"]

/-- `generateSwedishDescription`: a class phrase joined with a company
name; an out-of-range choice interpolates as the string `"undefined"`. -/
def generateSwedishDescription (c : BASClass) (st : GenState) : String × GenState :=
  let (descOpt, st1) := randomChoice (getSwedishDescriptions c) st
  let (companyOpt, st2) := randomChoice getSwedishCompanies st1
  let descStr := descOpt.getD "undefined"
  let companyStr := companyOpt.getD "undefined"
  (s!"{descStr} - {companyStr}", st2)

/-- `determineDebitCredit`: fixed polarity per class; financial and
extraordinary items flip a coin (`random() < 0.5`). -/
def determineDebitCredit (c : BASClass) (st : GenState) : DC × GenState :=
  match c with
  | .ASSETS | .COST_OF_SALES | .OPERATING_EXPENSES => (.DEBIT, st)
  | .LIABILITIES | .EQUITY | .REVENUE => (.CREDIT, st)
  | .FINANCIAL_ITEMS | .EXTRAORDINARY_ITEMS =>
    let (r, st') := nextRandom st
    (if r < 1 / 2 then .DEBIT else .CREDIT, st')

/-- `shouldIncludeVAT`: probability draw for revenue / operating expenses
(0.8) and cost of sales (0.6); all other classes never (no draw). -/
def shouldIncludeVAT (c : BASClass) (st : GenState) : Bool × GenState :=
  match c with
  | .REVENUE | .OPERATING_EXPENSES =>
    let (r, st') := nextRandom st
    (decide (r < 8 / 10), st')
  | .COST_OF_SALES =>
    let (r, st') := nextRandom st
    (decide (r < 6 / 10), st')
  | _ => (false, st)

/-- `generateReference`: prefix choice, 6-digit-ish number
`Math.floor(random() * 999999) + 100000`, and the current year. -/
def generateReference (env : GenEnv) (st : GenState) : String × GenState :=
  let (pfxOpt, st1) := randomChoice ["INV", "REF", "ORD", "PAY", "TXN"] st
  let (r, st2) := nextRandom st1
  let number : ℤ := ⌊r * 999999⌋ + 100000
  let pfx := pfxOpt.getD "undefined"
  let year := env.nowYear
  (s!"{pfx}-{year}-{number}", st2)

/-- `generateTransaction(account)`: draws in source order — date, amount,
description, debit/credit, optional VAT (short-circuited when
`config.includeVAT` is false), then `uuidv4()` and the reference.  The
`"YYYY-MM-DD"` date string is encoded as its epoch-day number: the `Date`
constructor truncates the fractional ms value and `toISOString` floors to
the containing UTC day. -/
def generateTransaction (env : GenEnv) (cfg : MockDataConfig) (account : Account)
    (st0 : GenState) : Transaction × GenState :=
  let (dateMs, st1) := randomDateInRange cfg st0
  let (amount, st2) := generateRealisticAmount account.basClass st1
  let (description, st3) := generateSwedishDescription account.basClass st2
  let (debitCredit, st4) := determineDebitCredit account.basClass st3
  let (vat, st5) :=
    if cfg.includeVAT then
      match shouldIncludeVAT account.basClass st4 with
      | (true, stv) =>
        match randomChoice (SWEDISH_VAT_RATES.filter (fun rate => rate > 0)) stv with
        | (some rate, stv') =>
          ((some (JsNum.int (jsRound ((amount : ℚ) * rate / 100))), some rate), stv')
        | (none, stv') => ((some JsNum.nan, (none : Option ℚ)), stv')
      | (false, stv) => ((none, none), stv)
    else ((none, none), st4)
  let (id, st6) := nextUuid env st5
  let (reference, st7) := generateReference env st6
  ({ id := id
     date := (jsTrunc dateMs).fdiv 86400000
     description := description
     amount := amount
     currency := "SEK"
     accountId := account.id
     account := account
     basClass := account.basClass
     accountNumber := account.accountNumber
     debitCredit := debitCredit
     vatAmount := vat.1
     vatRate := vat.2
     reference := reference
     createdAt := env.nowIso
     updatedAt := env.nowIso }, st7)

/-- The generation loop body of `generateTransactions`: `datasetSize`
iterations, each picking an account and generating one transaction.
Dereferencing the `undefined` produced by `randomChoice` on an empty (or
negatively indexed) accounts array throws a `TypeError`, modelled as
`Except.error`. -/
def generateTransactionsGo (env : GenEnv) (cfg : MockDataConfig)
    (accounts : List Account) : ℕ → GenState → Except String (List Transaction)
  | 0, _ => .ok []
  | n + 1, st =>
    match randomChoice accounts st with
    | (none, _) => .error "TypeError: Cannot read properties of undefined (reading basClass)"
    | (some account, st1) =>
      let (t, st2) := generateTransaction env cfg account st1
      match generateTransactionsGo env cfg accounts n st2 with
      | .ok rest => .ok (t :: rest)
      | .error e => .error e

/-- The final `sort((a, b) => new Date(b.date) - new Date(a.date))`:
stable sort by date descending (modern engines' `Array.prototype.sort`
is stable). -/
def sortByDateDesc (l : List Transaction) : List Transaction :=
  l.mergeSort fun a b => b.date ≤ a.date

/-- `generateTransactions(accounts)`. -/
def generateTransactions (env : GenEnv) (cfg : MockDataConfig)
    (accounts : List Account) : Except String (List Transaction) :=
  (generateTransactionsGo env cfg accounts cfg.datasetSize (initialGenState cfg)).map
    sortByDateDesc

/-! ## Request validation (`src/frontend/src/types/api-types.ts`) -/

/-- `GetTransactionsParams`: every field optional; numbers are rationals
(binary64 values), dates are raw strings. -/
structure GetTransactionsParams where
  page : Option ℚ := none
  size : Option ℚ := none
  dateFrom : Option String := none
  dateTo : Option String := none
  basClass : Option ℚ := none
  accountId : Option String := none
  search : Option String := none
  debitCredit : Option DC := none
  minAmount : Option ℚ := none
  maxAmount : Option ℚ := none
  deriving DecidableEq, Repr

/-- JavaScript truthiness of an optional string: present and non-empty. -/
def truthyStr (o : Option String) : Option String :=
  match o with
  | some s => if s.isEmpty then none else some s
  | none => none

/-- `Number.isInteger` (`NaN` does not arise in the embedded values). -/
def isInteger (q : ℚ) : Bool := q.den = 1

def isHexDigit (c : Char) : Bool :=
  c.isDigit || ('a' ≤ c && c ≤ 'f') || ('A' ≤ c && c ≤ 'F')

/-- The case-insensitive UUID regex of `api-types.ts`:
`^[0-9a-f]{8}-[0-9a-f]{4}-[1-5][0-9a-f]{3}-[89ab][0-9a-f]{3}-[0-9a-f]{12}$`. -/
def isValidUUID (s : String) : Bool :=
  match (s.splitOn "-").map String.toList with
  | [g1, g2, g3, g4, g5] =>
    g1.length = 8 && g1.all isHexDigit &&
    g2.length = 4 && g2.all isHexDigit &&
    (match g3 with
     | v :: rest => ('1' ≤ v && v ≤ '5') && rest.length = 3 && rest.all isHexDigit
     | [] => false) &&
    (match g4 with
     | v :: rest => ['8', '9', 'a', 'b', 'A', 'B'].contains v &&
         rest.length = 3 && rest.all isHexDigit
     | [] => false) &&
    g5.length = 12 && g5.all isHexDigit
  | _ => false

/-- `validatePaginationParams`: page must be a non-negative integer, size
an integer in `[10, 100]`. -/
def validatePaginationParams (p : GetTransactionsParams) : List String :=
  (match p.page with
   | none => []
   | some q => if ¬ isInteger q ∨ q < 0 then ["Page must be a non-negative integer"] else []) ++
  (match p.size with
   | none => []
   | some q =>
     if ¬ isInteger q ∨ q < 10 ∨ q > 100 then ["Page size must be between 10 and 100"] else [])

def checkDateFrom (p : GetTransactionsParams) : Except String (List String) :=
  match truthyStr p.dateFrom with
  | none => .ok []
  | some s => do
    let b ← isValidDateString s
    pure (if b then [] else ["dateFrom must be in YYYY-MM-DD format"])

def checkDateTo (p : GetTransactionsParams) : Except String (List String) :=
  match truthyStr p.dateTo with
  | none => .ok []
  | some s => do
    let b ← isValidDateString s
    pure (if b then [] else ["dateTo must be in YYYY-MM-DD format"])

/-- `new Date(dateFrom) > new Date(dateTo)`; a `NaN` time value compares
false. -/
def checkDateOrder (p : GetTransactionsParams) : List String :=
  match truthyStr p.dateFrom, truthyStr p.dateTo with
  | some f, some t =>
    match jsDateParseMs f, jsDateParseMs t with
    | some fm, some tm => if tm < fm then ["dateFrom cannot be after dateTo"] else []
    | _, _ => []
  | _, _ => []

def checkBasClass (p : GetTransactionsParams) : List String :=
  match p.basClass with
  | none => []
  | some q => if ¬ isInteger q ∨ q < 1 ∨ q > 8 then ["basClass must be between 1 and 8"] else []

def checkAccountId (p : GetTransactionsParams) : List String :=
  match truthyStr p.accountId with
  | none => []
  | some s => if ¬ isValidUUID s then ["accountId must be a valid UUID"] else []

def checkSearch (p : GetTransactionsParams) : List String :=
  match truthyStr p.search with
  | none => []
  | some s => if s.length > 100 then ["Search text cannot exceed 100 characters"] else []

def checkDebitCredit (p : GetTransactionsParams) : List String :=
  match p.debitCredit with
  | none => []
  | some dc =>
    if ¬ [DC.DEBIT, DC.CREDIT].contains dc then ["debitCredit must be either DEBIT or CREDIT"]
    else []

def checkMinAmountInteger (p : GetTransactionsParams) : List String :=
  match p.minAmount with
  | none => []
  | some q => if ¬ isInteger q then ["minAmount must be an integer (öre)"] else []

def checkMaxAmountInteger (p : GetTransactionsParams) : List String :=
  match p.maxAmount with
  | none => []
  | some q => if ¬ isInteger q then ["maxAmount must be an integer (öre)"] else []

def checkMinMax (p : GetTransactionsParams) : List String :=
  match p.minAmount, p.maxAmount with
  | some a, some b => if b < a then ["minAmount cannot be greater than maxAmount"] else []
  | _, _ => []

/-- `validateGetTransactionsParams`: accumulate every violated field's
message, in source order.  The date-format checks can throw (`Except.error`,
see `isValidDateString`); a throw escapes the validator. -/
def validateGetTransactionsParams (p : GetTransactionsParams) :
    Except String (List String) := do
  let e2 ← checkDateFrom p
  let e3 ← checkDateTo p
  pure (validatePaginationParams p ++ e2 ++ e3 ++ checkDateOrder p ++ checkBasClass p ++
    checkAccountId p ++ checkSearch p ++ checkDebitCredit p ++ checkMinAmountInteger p ++
    checkMaxAmountInteger p ++ checkMinMax p)

/-! ## Query engine (`MockTransactionApiService`, `src/unnamed/part_008`) -/

/-- `MockTransactionApiConfig`. -/
structure MockTransactionApiConfig where
  networkDelayMs : ℚ
  errorRate : ℚ
  defaultPageSize : ℚ
  maxPageSize : ℚ
  deriving Repr

/-- The constructor-default service configuration (delay 250 ms, error
rate 2 %, page size default 50, max 100). -/
def mockApiConfig : MockTransactionApiConfig := ⟨250, 1 / 50, 50, 100⟩

/-- `filterTransactions`: the AND-composed optional predicates, applied in
source order.  `t.date * 86400000` is the parse of the transaction's
`"YYYY-MM-DD"` string (UTC midnight); the `dateTo` bound gets
`setHours(23, 59, 59, 999)` (host clock taken as UTC). -/
def filterTransactions (p : GetTransactionsParams) (cache : List Transaction) :
    List Transaction :=
  let f1 := match truthyStr p.dateFrom with
    | none => cache
    | some s =>
      match jsDateParseMs s with
      | some fm => cache.filter fun t => fm ≤ t.date * 86400000
      | none => cache.filter fun _ => false
  let f2 := match truthyStr p.dateTo with
    | none => f1
    | some s =>
      match jsDateParseMs s with
      | some tm => f1.filter fun t => t.date * 86400000 ≤ tm + 86399999
      | none => f1.filter fun _ => false
  let f3 := match p.basClass with
    | none => f2
    | some q => f2.filter fun t => (t.basClass.toInt : ℚ) = q
  let f4 := match truthyStr p.accountId with
    | none => f3
    | some aid => f3.filter fun t => t.accountId = aid
  let f5 := match truthyStr p.search with
    | none => f4
    | some s =>
      let searchLower := s.toLower
      f4.filter fun t =>
        jsIncludes t.description.toLower searchLower ||
        jsIncludes t.reference.toLower searchLower ||
        jsIncludes t.account.name.toLower searchLower
  let f6 := match p.debitCredit with
    | none => f5
    | some dc => f5.filter fun t => t.debitCredit = dc
  let f7 := match p.minAmount with
    | none => f6
    | some m => f6.filter fun t => m ≤ (t.amount : ℚ)
  match p.maxAmount with
  | none => f7
  | some m => f7.filter fun t => (t.amount : ℚ) ≤ m

/-- `Array.prototype.slice(start, stop)` on integer indices: negative
indices count from the end, out-of-range indices clamp. -/
def jsSliceZ (l : List α) (start stop : ℤ) : List α :=
  let len : ℤ := l.length
  let s := if start < 0 then max (len + start) 0 else min start len
  let e := if stop < 0 then max (len + stop) 0 else min stop len
  (l.drop s.toNat).take (e - s).toNat

/-- `PaginationInfo` as constructed by `paginateTransactions`. -/
structure PaginationInfo where
  currentPage : ℚ
  pageSize : ℚ
  totalCount : ℕ
  totalPages : ℤ
  hasNext : Bool
  hasPrevious : Bool
  deriving DecidableEq, Repr

/-- A value of the `Record<string, unknown>` built by
`buildAppliedFilters`. -/
inductive AppliedFilterValue where
  | str (v : String)
  | num (v : ℚ)
  | dc (v : DC)
  deriving DecidableEq, Repr

/-- `buildAppliedFilters`: echo every present (truthy / defined) filter
field, in source order. -/
def buildAppliedFilters (p : GetTransactionsParams) :
    List (String × AppliedFilterValue) :=
  (match truthyStr p.dateFrom with
   | some s => [("dateFrom", AppliedFilterValue.str s)] | none => []) ++
  (match truthyStr p.dateTo with
   | some s => [("dateTo", AppliedFilterValue.str s)] | none => []) ++
  (match p.basClass with
   | some q => [("basClass", AppliedFilterValue.num q)] | none => []) ++
  (match truthyStr p.accountId with
   | some s => [("accountId", AppliedFilterValue.str s)] | none => []) ++
  (match truthyStr p.search with
   | some s => [("search", AppliedFilterValue.str s)] | none => []) ++
  (match p.debitCredit with
   | some d => [("debitCredit", AppliedFilterValue.dc d)] | none => []) ++
  (match p.minAmount with
   | some q => [("minAmount", AppliedFilterValue.num q)] | none => []) ++
  (match p.maxAmount with
   | some q => [("maxAmount", AppliedFilterValue.num q)] | none => [])

/-- The summary record of `calculateSummary`. -/
structure TransactionSummary where
  totalAmount : ℤ
  debitTotal : ℤ
  creditTotal : ℤ
  transactionCount : ℕ
  averageAmount : ℤ
  deriving DecidableEq, Repr

/-- `calculateSummary`: debit and credit sums over its whole argument,
net = debit − credit, count, and the rounded mean (0 for an empty list —
the division is guarded). -/
def calculateSummary (transactions : List Transaction) : TransactionSummary :=
  let debitTransactions := transactions.filter fun t => t.debitCredit = DC.DEBIT
  let creditTransactions := transactions.filter fun t => t.debitCredit = DC.CREDIT
  let debitTotal := debitTransactions.foldl (fun sum t => sum + t.amount) 0
  let creditTotal := creditTransactions.foldl (fun sum t => sum + t.amount) 0
  let averageAmount : ℚ :=
    if transactions.length > 0 then
      ((transactions.foldl (fun sum t => sum + t.amount) 0 : ℤ) : ℚ) / transactions.length
    else 0
  { totalAmount := debitTotal - creditTotal
    debitTotal := debitTotal
    creditTotal := creditTotal
    transactionCount := transactions.length
    averageAmount := jsRound averageAmount }

/-- `TransactionListResponse` as constructed by `paginateTransactions`. -/
structure TransactionListResponse where
  transactions : List Transaction
  pagination : PaginationInfo
  filters : List (String × AppliedFilterValue)
  summary : TransactionSummary
  deriving DecidableEq, Repr

/-- `paginateTransactions(transactions, params)`: effective size is
`Math.min(params.size || defaultPageSize, maxPageSize)` (note: no lower
clamp), `totalPages = Math.ceil(totalCount / size)`, and the page is
`transactions.slice(page * size, Math.min(page * size + size, totalCount))`.
The summary is computed over the whole `transactions` argument. -/
def paginateTransactions (cfg : MockTransactionApiConfig)
    (transactions : List Transaction) (p : GetTransactionsParams) :
    TransactionListResponse :=
  let page : ℚ := p.page.getD 0
  let size : ℚ :=
    min (match p.size with
         | none => cfg.defaultPageSize
         | some q => if q = 0 then cfg.defaultPageSize else q) cfg.maxPageSize
  let totalCount : ℕ := transactions.length
  let totalPages : ℤ := ⌈(totalCount : ℚ) / size⌉
  let startIndex : ℚ := page * size
  let endIndex : ℚ := min (startIndex + size) totalCount
  { transactions := jsSliceZ transactions (jsTrunc startIndex) (jsTrunc endIndex)
    pagination :=
      { currentPage := page
        pageSize := size
        totalCount := totalCount
        totalPages := totalPages
        hasNext := decide (page < (totalPages : ℚ) - 1)
        hasPrevious := decide (page > 0) }
    filters := buildAppliedFilters p
    summary := calculateSummary transactions }

/-- The machine-readable error kinds of `createApiError`. -/
inductive ErrKind where
  | VALIDATION_ERROR
  | NOT_FOUND
  | SERVER_ERROR
  | PROCESSING_ERROR
  deriving DecidableEq, Repr

/-- The observable outcome of a service call: a success payload, an
`ApiResponse` carrying `createApiError(kind, message)`, or an exception
escaping the method (a rejected promise). -/
inductive ApiResult (α : Type) where
  | ok (data : α)
  | apiError (kind : ErrKind) (message : String)
  | thrown (message : String)
  deriving DecidableEq, Repr

/-- `validationErrors.join(', ')`. -/
def joinComma (l : List String) : String := String.intercalate ", " l

/-- `getTransactions(params)`: simulated-error draw first (surfaced here
as the explicit `simErr` flag), then validation (outside the `try`, so a
validator throw escapes), then filter + paginate.  The `try`-guarded
body is total in this embedding, so the `PROCESSING_ERROR` branch is
unreachable. -/
def getTransactions (cfg : MockTransactionApiConfig) (simErr : Bool)
    (p : GetTransactionsParams) (cache : List Transaction) :
    ApiResult TransactionListResponse :=
  if simErr then
    .apiError .SERVER_ERROR "Ett oväntat fel uppstod vid hämtning av transaktioner"
  else
    match validateGetTransactionsParams p with
    | .error e => .thrown e
    | .ok errs =>
      if errs.isEmpty then .ok (paginateTransactions cfg (filterTransactions p cache) p)
      else .apiError .VALIDATION_ERROR (joinComma errs)

/-- Observer: the `pageSize` a successful response reports. -/
def respPageSize (r : ApiResult TransactionListResponse) : Option ℚ :=
  match r with
  | .ok d => some d.pagination.pageSize
  | _ => none

/-! ## Concrete fixtures used by witnesses and counterexamples -/

/-- A generator environment: uuid stream `A0, A1, …`, clock fixed at
2025-01-01. -/
def envA : GenEnv := ⟨fun n => "A" ++ toString n, "2025-01-01T00:00:00.000Z", 2025⟩

/-- Same clock as `envA` but a different uuid stream, i.e. a second call
of the generator observing fresh `uuidv4()` results. -/
def envB : GenEnv := ⟨fun n => "B" ++ toString n, "2025-01-01T00:00:00.000Z", 2025⟩

/-- One transaction, one-day range collapsed to the epoch, VAT on,
seed 42. -/
def cfg1 : MockDataConfig := ⟨1, 0, 0, true, some 42⟩

/-- A concrete operating-expenses account. -/
def acctW : Account :=
  ⟨"a-1", "6110", "Kontorsmaterial", "Office Supplies", .OPERATING_EXPENSES,
   "Rörelsekostnader", true, "2024-01-01T00:00:00.000Z"⟩

/-! ## LCG lemmas -/

theorem lcgStep_nonneg {s : ℤ} (h : 0 ≤ s) : 0 ≤ lcgStep s :=
  Int.tmod_nonneg _ (by positivity)

theorem lcgStep_lt (s : ℤ) : lcgStep s < 233280 :=
  Int.tmod_lt_of_pos _ (by norm_num)

theorem lcgState_bounds (seed : ℤ) (h : 0 ≤ seed) (n : ℕ) :
    0 ≤ lcgState seed n ∧ lcgState seed (n + 1) < 233280 := by
  induction n with
  | zero => exact ⟨h, lcgStep_lt _⟩
  | succ n ih => exact ⟨lcgStep_nonneg ih.1, lcgStep_lt _⟩

/-- **C9 counterexample.**  The claim quantifies over every integer seed,
but JavaScript's `%` follows the dividend's sign: from seed `-6` the very
first emitted value is `-6509/233280`, which is not in `[0, 1)`. -/
theorem lcgValue_negative_seed_counterexample : lcgValue (-6) 0 < 0 := by
  with_unfolding_all decide

/-- **C9 (amended).**  For every non-negative integer seed the source
follows the stated recurrence `state' = (state * 9301 + 49297) % 233280`,
emits `state' / 233280`, and every emitted value lies in `[0, 1)`; the
embedded `this.random()` of the generator is exactly this recurrence, so
two sources built from the same seed emit pointwise-identical sequences. -/
theorem lcg_recurrence_and_range_nonneg_seed (seed : ℕ) (n : ℕ) (i : ℕ) :
    lcgState (seed : ℤ) (n + 1) = ((lcgState (seed : ℤ) n) * 9301 + 49297).tmod 233280 ∧
    lcgValue (seed : ℤ) n = (lcgState (seed : ℤ) (n + 1) : ℚ) / 233280 ∧
    0 ≤ lcgValue (seed : ℤ) n ∧ lcgValue (seed : ℤ) n < 1 ∧
    nextRandom ⟨lcgState (seed : ℤ) n, i⟩ =
      (lcgValue (seed : ℤ) n, ⟨lcgState (seed : ℤ) (n + 1), i⟩) := by
  have hb := lcgState_bounds (seed : ℤ) (Int.natCast_nonneg seed) n
  have hlo : (0 : ℚ) ≤ (lcgState (seed : ℤ) (n + 1) : ℚ) := by
    exact_mod_cast lcgStep_nonneg hb.1
  have hhi : (lcgState (seed : ℤ) (n + 1) : ℚ) < 233280 := by exact_mod_cast hb.2
  refine ⟨rfl, rfl, ?_, ?_, rfl⟩
  · unfold lcgValue
    positivity
  · unfold lcgValue
    rw [div_lt_one (by norm_num)]
    exact hhi

/-! ## C2: generated account numbers versus the BAS class ranges -/

/-- **C2 (code bug).**  `generateAccounts` emits the account numbers
`3010` and `3040` under class 4 (whose `BAS_CLASS_INFO` range is
`[4000, 4999]`), `4010` under class 5, and `8310`/`8410` under class 7 —
all failing the repository's own `isValidBASAccountNumber`. -/
theorem generateAccounts_violates_bas_class_ranges :
    (generateAccounts envA).all
      (fun a => isValidBASAccountNumber a.accountNumber a.basClass) = false := by
  decide

/-! ## C1: two runs with the same configuration -/

/-- **C1 (code bug).**  With the same configuration (seed 42, one
transaction), two runs of `generateTransactions(generateAccounts(), …)`
that observe different `uuidv4()` results — as two real calls do, since
uuids are drawn from ambient entropy — produce different outputs: the
identifier fields differ. -/
theorem generateTransactions_differs_across_uuid_streams :
    (generateTransactions envA cfg1 (generateAccounts envA)).toOption ≠
      (generateTransactions envB cfg1 (generateAccounts envB)).toOption := by
  with_unfolding_all decide

/-! ## C6: generation over an empty accounts list -/

theorem randomChoice_nil (st : GenState) :
    randomChoice ([] : List α) st = (none, (nextRandom st).2) := by
  simp [randomChoice]

/-- **C6.**  With `datasetSize > 0`, `generateTransactions([])` fails on
the first iteration — `randomChoice` yields `undefined` and dereferencing
it throws — and in particular never returns a (empty or partial)
transaction list. -/
theorem generateTransactions_empty_accounts_fails (env : GenEnv) (cfg : MockDataConfig)
    (h : 0 < cfg.datasetSize) :
    generateTransactions env cfg [] =
      .error "TypeError: Cannot read properties of undefined (reading basClass)" := by
  obtain ⟨n, hn⟩ : ∃ n, cfg.datasetSize = n + 1 := ⟨cfg.datasetSize - 1, by omega⟩
  unfold generateTransactions
  rw [hn]
  rw [show generateTransactionsGo env cfg [] (n + 1) (initialGenState cfg) =
      .error "TypeError: Cannot read properties of undefined (reading basClass)" by
    simp [generateTransactionsGo, randomChoice_nil]]
  rfl

/-- **C6 witness.** -/
theorem generateTransactions_empty_accounts_fails_witness :
    generateTransactions envA ⟨1, 0, 0, false, some 42⟩ [] =
      .error "TypeError: Cannot read properties of undefined (reading basClass)" :=
  generateTransactions_empty_accounts_fails envA ⟨1, 0, 0, false, some 42⟩ (by decide)

/-! ## Random-draw lemmas for the generator invariant -/

theorem nextRandom_fst_nonneg (st : GenState) (h : 0 ≤ st.rand) :
    0 ≤ (nextRandom st).1 := by
  have h1 := lcgStep_nonneg h
  unfold nextRandom
  have : (0 : ℚ) ≤ (lcgStep st.rand : ℚ) := by exact_mod_cast h1
  positivity

theorem nextRandom_fst_lt_one (st : GenState) : (nextRandom st).1 < 1 := by
  have h2 := lcgStep_lt st.rand
  unfold nextRandom
  rw [div_lt_one (by norm_num)]
  exact_mod_cast h2

theorem nextRandom_snd_rand (st : GenState) (h : 0 ≤ st.rand) :
    0 ≤ (nextRandom st).2.rand :=
  lcgStep_nonneg h

theorem randomChoice_fst (l : List α) (st : GenState) :
    (randomChoice l st).1 =
      if h : 0 ≤ ⌊(nextRandom st).1 * l.length⌋ ∧
          (⌊(nextRandom st).1 * l.length⌋).toNat < l.length
      then some (l.get ⟨(⌊(nextRandom st).1 * l.length⌋).toNat, h.2⟩)
      else none := rfl

theorem randomChoice_snd (l : List α) (st : GenState) :
    (randomChoice l st).2 = (nextRandom st).2 := rfl

theorem randomChoice_snd_rand (l : List α) (st : GenState) (h : 0 ≤ st.rand) :
    0 ≤ (randomChoice l st).2.rand :=
  lcgStep_nonneg h

/-- A successful pick can only come from a non-negative float, so the
post-draw LCG state is non-negative — even if nothing is known about the
pre-draw state. -/
theorem randomChoice_some_nonneg {l : List α} {st : GenState} {a : α}
    (h : (randomChoice l st).1 = some a) : 0 ≤ (randomChoice l st).2.rand := by
  rw [randomChoice_fst] at h
  rw [randomChoice_snd]
  split at h
  case isTrue hc =>
    have hlen : 0 < l.length := by
      rcases Nat.eq_zero_or_pos l.length with h0 | hpos
      · rw [h0] at hc; exact absurd hc.2 (by omega)
      · exact hpos
    have hfl : (0 : ℚ) ≤ (nextRandom st).1 * l.length := Int.floor_nonneg.mp hc.1
    have hq : (0 : ℚ) ≤ (nextRandom st).1 := by
      by_contra hneg
      push_neg at hneg
      have : (nextRandom st).1 * l.length < 0 :=
        mul_neg_of_neg_of_pos hneg (by exact_mod_cast hlen)
      linarith
    show 0 ≤ lcgStep st.rand
    by_contra hneg
    push_neg at hneg
    have hlt : ((lcgStep st.rand : ℚ)) / 233280 < 0 :=
      div_neg_of_neg_of_pos (by exact_mod_cast hneg) (by norm_num)
    have : ¬ ((0 : ℚ) ≤ (lcgStep st.rand : ℚ) / 233280) := not_le.mpr hlt
    exact this hq
  case isFalse => exact absurd h (by simp)

theorem randomChoice_some_mem {l : List α} {st : GenState} {a : α}
    (h : (randomChoice l st).1 = some a) : a ∈ l := by
  rw [randomChoice_fst] at h
  split at h
  case isTrue hc =>
    simp only [Option.some_inj] at h
    rw [← h]
    exact l.get_mem _ _
  case isFalse => exact absurd h (by simp)

/-- From a non-negative state, a pick from a non-empty list always
succeeds and returns a list element. -/
theorem randomChoice_some_of_nonneg {l : List α} (st : GenState) (h : 0 ≤ st.rand)
    (hl : l ≠ []) : ∃ a, (randomChoice l st).1 = some a ∧ a ∈ l := by
  have hr0 := nextRandom_fst_nonneg st h
  have hr1 := nextRandom_fst_lt_one st
  have hlen : 0 < l.length := List.length_pos.mpr hl
  have hlenQ : (0 : ℚ) < l.length := by exact_mod_cast hlen
  have hidx0 : 0 ≤ ⌊(nextRandom st).1 * l.length⌋ :=
    Int.floor_nonneg.mpr (mul_nonneg hr0 hlenQ.le)
  have hidxlt : ⌊(nextRandom st).1 * l.length⌋ < (l.length : ℤ) := by
    apply Int.floor_lt.mpr
    push_cast
    calc (nextRandom st).1 * l.length < 1 * l.length :=
          mul_lt_mul_of_pos_right hr1 hlenQ
      _ = l.length := one_mul _
  have htn : (⌊(nextRandom st).1 * l.length⌋).toNat < l.length := by omega
  refine ⟨l.get ⟨(⌊(nextRandom st).1 * l.length⌋).toNat, htn⟩, ?_, l.get_mem _ _⟩
  rw [randomChoice_fst, dif_pos ⟨hidx0, htn⟩]

/-! ## C3: amounts and VAT fields of generated transactions -/

/-- The per-transaction property of C3: a non-negative integer amount,
and a present `vatAmount` comes with a present legal non-zero `vatRate`
and equals `Math.round(amount * rate / 100)`. -/
def AmountVatInvariant (t : Transaction) : Prop :=
  0 ≤ t.amount ∧
  ∀ va, t.vatAmount = some va →
    ∃ rate, t.vatRate = some rate ∧ (rate = 6 ∨ rate = 12 ∨ rate = 25) ∧
      va = JsNum.int (jsRound ((t.amount : ℚ) * rate / 100))

theorem jsRound_nonneg {q : ℚ} (h : 0 ≤ q) : 0 ≤ jsRound q :=
  Int.floor_nonneg.mpr (show (0 : ℚ) ≤ q + 1 / 2 by linarith)

theorem randomDateInRange_snd (cfg : MockDataConfig) (st : GenState) :
    (randomDateInRange cfg st).2 = (nextRandom st).2 := rfl

theorem generateRealisticAmount_snd (c : BASClass) (st : GenState) :
    (generateRealisticAmount c st).2 = (nextRandom st).2 := rfl

theorem generateRealisticAmount_fst_nonneg (c : BASClass) (st : GenState)
    (h : 0 ≤ st.rand) : 0 ≤ (generateRealisticAmount c st).1 := by
  have hr := nextRandom_fst_nonneg st h
  rcases hnr : nextRandom st with ⟨r, st'⟩
  rw [hnr] at hr
  cases c <;> simp [generateRealisticAmount, hnr] <;> exact jsRound_nonneg (by linarith)

theorem generateSwedishDescription_snd_rand (c : BASClass) (st : GenState)
    (h : 0 ≤ st.rand) : 0 ≤ (generateSwedishDescription c st).2.rand := by
  show 0 ≤ (nextRandom (nextRandom st).2).2.rand
  exact nextRandom_snd_rand _ (nextRandom_snd_rand _ h)

theorem determineDebitCredit_snd_rand (c : BASClass) (st : GenState)
    (h : 0 ≤ st.rand) : 0 ≤ (determineDebitCredit c st).2.rand := by
  cases c <;> first
    | exact h
    | exact nextRandom_snd_rand st h

theorem shouldIncludeVAT_snd_rand (c : BASClass) (st : GenState)
    (h : 0 ≤ st.rand) : 0 ≤ (shouldIncludeVAT c st).2.rand := by
  cases c <;> first
    | exact h
    | exact nextRandom_snd_rand st h

theorem generateReference_snd_rand (env : GenEnv) (st : GenState)
    (h : 0 ≤ st.rand) : 0 ≤ (generateReference env st).2.rand := by
  show 0 ≤ (nextRandom (nextRandom st).2).2.rand
  exact nextRandom_snd_rand _ (nextRandom_snd_rand _ h)

theorem generateTransaction_invariant (env : GenEnv) (cfg : MockDataConfig)
    (account : Account) (st : GenState) (h : 0 ≤ st.rand) :
    AmountVatInvariant (generateTransaction env cfg account st).1 ∧
    0 ≤ (generateTransaction env cfg account st).2.rand := by
  rcases hd : randomDateInRange cfg st with ⟨dateMs, st1⟩
  have h1 : 0 ≤ st1.rand := by
    have h' := nextRandom_snd_rand st h
    rw [← randomDateInRange_snd cfg st, hd] at h'
    exact h'
  rcases ha : generateRealisticAmount account.basClass st1 with ⟨amount, st2⟩
  have hamt : 0 ≤ amount := by
    have := generateRealisticAmount_fst_nonneg account.basClass st1 h1
    rw [ha] at this; exact this
  have h2 : 0 ≤ st2.rand := by
    have h' := nextRandom_snd_rand st1 h1
    rw [← generateRealisticAmount_snd account.basClass st1, ha] at h'
    exact h'
  rcases hds : generateSwedishDescription account.basClass st2 with ⟨desc, st3⟩
  have h3 : 0 ≤ st3.rand := by
    have := generateSwedishDescription_snd_rand account.basClass st2 h2
    rw [hds] at this; exact this
  rcases hdc : determineDebitCredit account.basClass st3 with ⟨dc, st4⟩
  have h4 : 0 ≤ st4.rand := by
    have := determineDebitCredit_snd_rand account.basClass st3 h3
    rw [hdc] at this; exact this
  unfold generateTransaction
  cases hiv : cfg.includeVAT with
  | false =>
    simp only [hd, ha, hds, hdc, hiv, Bool.false_eq_true, if_false]
    constructor
    · exact ⟨hamt, by simp⟩
    · exact generateReference_snd_rand env _ h4
  | true =>
    simp only [hd, ha, hds, hdc, hiv, if_true]
    rcases hsv : shouldIncludeVAT account.basClass st4 with ⟨b, st5⟩
    have h5 : 0 ≤ st5.rand := by
      have := shouldIncludeVAT_snd_rand account.basClass st4 h4
      rw [hsv] at this; exact this
    cases b with
    | false =>
      simp only [hsv]
      constructor
      · exact ⟨hamt, by simp⟩
      · exact generateReference_snd_rand env _ h5
    | true =>
      have hrates : SWEDISH_VAT_RATES.filter (fun rate => rate > 0) = [6, 12, 25] := by
        norm_num [SWEDISH_VAT_RATES]
      obtain ⟨rate, hsome, hmem⟩ :=
        randomChoice_some_of_nonneg (l := [(6 : ℚ), 12, 25]) st5 h5 (by simp)
      rcases hrc : randomChoice [(6 : ℚ), 12, 25] st5 with ⟨o, st6⟩
      rw [hrc] at hsome
      simp only at hsome
      subst hsome
      have h6 : 0 ≤ st6.rand := by
        have := randomChoice_snd_rand [(6 : ℚ), 12, 25] st5 h5
        rw [hrc] at this; exact this
      simp only [hsv, hrates, hrc]
      constructor
      · refine ⟨hamt, ?_⟩
        intro va hva
        simp only at hva
        refine ⟨rate, by simp, ?_, ?_⟩
        · simpa using hmem
        · simp only [Option.some_inj] at hva
          exact hva.symm
      · exact generateReference_snd_rand env _ h6

theorem generateTransactionsGo_ok_invariant (env : GenEnv) (cfg : MockDataConfig)
    (accounts : List Account) :
    ∀ (n : ℕ) (st : GenState) (lst : List Transaction),
      generateTransactionsGo env cfg accounts n st = .ok lst →
      ∀ t ∈ lst, AmountVatInvariant t := by
  intro n
  induction n with
  | zero =>
    intro st lst hok t ht
    simp only [generateTransactionsGo] at hok
    cases hok
    simp at ht
  | succ n ih =>
    intro st lst hok t ht
    unfold generateTransactionsGo at hok
    rcases hrc : randomChoice accounts st with ⟨o, st1⟩
    rw [hrc] at hok
    cases o with
    | none => simp at hok
    | some account =>
      simp only at hok
      have hst1 : 0 ≤ st1.rand := by
        have hfst : (randomChoice accounts st).1 = some account := by rw [hrc]
        have := randomChoice_some_nonneg hfst
        rw [hrc] at this; exact this
      rcases hgt : generateTransaction env cfg account st1 with ⟨t0, st2⟩
      rw [hgt] at hok
      rcases hgo : generateTransactionsGo env cfg accounts n st2 with e | rest
      · rw [hgo] at hok; simp at hok
      · rw [hgo] at hok
        simp only [Except.ok.injEq] at hok
        rw [← hok] at ht
        have hinv := generateTransaction_invariant env cfg account st1 hst1
        rw [hgt] at hinv
        rcases List.mem_cons.mp ht with h0 | hrest
        · rw [h0]; exact hinv.1
        · exact ih st2 rest hgo t hrest

/-- **C3.**  Every transaction a successful `generateTransactions` run
produces has a non-negative integer amount, and whenever `vatAmount` is
present, `vatRate` is present, equals one of `{6, 12, 25}`, and
`vatAmount = Math.round(amount * vatRate / 100)`.  (Runs that would
produce a negative float — possible only from a negative seed — die on
the very first account pick and return nothing.) -/
theorem generateTransactions_amount_nonneg_vat_consistent (env : GenEnv)
    (cfg : MockDataConfig) (accounts : List Account) (out : List Transaction)
    (h : generateTransactions env cfg accounts = .ok out) :
    ∀ t ∈ out, AmountVatInvariant t := by
  unfold generateTransactions at h
  rcases hgo : generateTransactionsGo env cfg accounts cfg.datasetSize (initialGenState cfg)
    with e | lst
  · rw [hgo] at h; simp [Except.map] at h
  · rw [hgo] at h
    simp only [Except.map, Except.ok.injEq] at h
    intro t ht
    rw [← h] at ht
    exact generateTransactionsGo_ok_invariant env cfg accounts cfg.datasetSize
      (initialGenState cfg) lst hgo t (List.mem_mergeSort.mp ht)

/-- Executable form of `AmountVatInvariant`, for concrete checking. -/
def amountVatInvariantB (t : Transaction) : Bool :=
  decide (0 ≤ t.amount) &&
  (match t.vatAmount, t.vatRate with
   | none, _ => true
   | some va, some rate =>
     [(6 : ℚ), 12, 25].contains rate &&
     decide (va = JsNum.int (jsRound ((t.amount : ℚ) * rate / 100)))
   | some _, none => false)

theorem amountVatInvariantB_of_invariant {t : Transaction}
    (h : AmountVatInvariant t) : amountVatInvariantB t = true := by
  obtain ⟨hamt, hvat⟩ := h
  unfold amountVatInvariantB
  rcases hva : t.vatAmount with _ | va
  · simp [hamt]
  · obtain ⟨rate, hrate, hmem, hval⟩ := hvat va hva
    rw [hrate]
    have hc : [(6 : ℚ), 12, 25].contains rate = true := by
      rcases hmem with h | h | h <;> simp [h]
    simp [hamt, hc, hval]
    exact hmem

/-- **C3 witness**: a concrete one-transaction run (seed 42, VAT on)
returns successfully and every produced transaction satisfies the
invariant. -/
theorem generateTransactions_amount_nonneg_vat_consistent_witness :
    ((generateTransactions envA cfg1 [acctW]).toOption.map
      (fun l => l.all amountVatInvariantB)) = some true := by
  rcases hg : generateTransactions envA cfg1 [acctW] with e | out
  · have hs : (generateTransactions envA cfg1 [acctW]).toOption.isSome = true := by
      with_unfolding_all decide
    rw [hg] at hs
    simp [Except.toOption] at hs
  · have hinv := generateTransactions_amount_nonneg_vat_consistent envA cfg1 [acctW] out hg
    have hall : out.all amountVatInvariantB = true :=
      List.all_eq_true.mpr fun t ht => amountVatInvariantB_of_invariant (hinv t ht)
    simp [Except.toOption, hall]

/-! ## C5: the summary is computed over the whole filtered set -/

theorem foldl_add_amount (l : List Transaction) (z : ℤ) :
    l.foldl (fun sum t => sum + t.amount) z = z + (l.map Transaction.amount).sum := by
  induction l generalizing z with
  | nil => simp
  | cons t ts ih => simp [ih]; ring

theorem paginateTransactions_summary_def (cfg : MockTransactionApiConfig)
    (txs : List Transaction) (p : GetTransactionsParams) :
    (paginateTransactions cfg txs p).summary = calculateSummary txs := rfl

/-- **C5.**  For every pagination request, the summary attached to the
page is the aggregate of the whole filtered set fed to
`paginateTransactions`, regardless of page index and size: debit and
credit sums range over the full set, net = debit − credit, the count is
the full set's size, and the average is the rounded mean of the full
set. -/
theorem paginateTransactions_summary_over_full_filtered_set
    (txs : List Transaction) (p : GetTransactionsParams) :
    (paginateTransactions mockApiConfig txs p).summary.debitTotal =
        ((txs.filter fun t => t.debitCredit = DC.DEBIT).map Transaction.amount).sum ∧
    (paginateTransactions mockApiConfig txs p).summary.creditTotal =
        ((txs.filter fun t => t.debitCredit = DC.CREDIT).map Transaction.amount).sum ∧
    (paginateTransactions mockApiConfig txs p).summary.totalAmount =
        (paginateTransactions mockApiConfig txs p).summary.debitTotal -
          (paginateTransactions mockApiConfig txs p).summary.creditTotal ∧
    (paginateTransactions mockApiConfig txs p).summary.transactionCount = txs.length ∧
    (paginateTransactions mockApiConfig txs p).summary.averageAmount =
        jsRound (if txs.length = 0 then 0
                 else ((txs.map Transaction.amount).sum : ℚ) / txs.length) := by
  rw [paginateTransactions_summary_def]
  unfold calculateSummary
  refine ⟨by simp [foldl_add_amount], by simp [foldl_add_amount], by simp, by simp, ?_⟩
  simp only [foldl_add_amount, zero_add]
  rcases Nat.eq_zero_or_pos txs.length with h0 | hpos
  · simp [h0]
  · have h1 : ¬ txs.length = 0 := by omega
    simp [hpos, h1]

/-! ## C10: empty filter result is served safely -/

theorem jsSliceZ_nil (a b : ℤ) : jsSliceZ ([] : List α) a b = [] := by
  simp [jsSliceZ]

theorem calculateSummary_nil : calculateSummary [] = ⟨0, 0, 0, 0, 0⟩ := by
  unfold calculateSummary
  norm_num [jsRound]

/-- **C10.**  A valid request whose filter matches nothing is a success:
empty items, summary `⟨0, 0, 0, 0, 0⟩`; the average-amount division is
guarded by the length check, so no division by zero occurs. -/
theorem getTransactions_empty_filter_result_safe (p : GetTransactionsParams)
    (cache : List Transaction) (hv : validateGetTransactionsParams p = .ok [])
    (hf : filterTransactions p cache = []) :
    getTransactions mockApiConfig false p cache =
      .ok (paginateTransactions mockApiConfig [] p) ∧
    (paginateTransactions mockApiConfig [] p).transactions = [] ∧
    (paginateTransactions mockApiConfig [] p).summary = ⟨0, 0, 0, 0, 0⟩ := by
  refine ⟨?_, ?_, ?_⟩
  · unfold getTransactions
    rw [hv]
    simp [hf]
  · exact jsSliceZ_nil _ _
  · exact calculateSummary_nil

/-- **C10 witness**: the all-defaults request against an empty cache. -/
theorem getTransactions_empty_filter_result_safe_witness :
    getTransactions mockApiConfig false {} [] =
      .ok (paginateTransactions mockApiConfig [] {}) ∧
    (paginateTransactions mockApiConfig [] {}).transactions = [] ∧
    (paginateTransactions mockApiConfig [] {}).summary = ⟨0, 0, 0, 0, 0⟩ :=
  getTransactions_empty_filter_result_safe {} [] (by with_unfolding_all rfl)
    (by with_unfolding_all rfl)

/-! ## C7: `minAmount > maxAmount` and validation before filtering -/

/-- **C7 counterexample.**  The claim promises a `ValidationError` for
every request with `minAmount > maxAmount`.  But when such a request also
carries a regex-shaped, calendar-invalid `dateFrom`, the validator itself
throws (`toISOString` on an `Invalid Date`), and the exception escapes
`getTransactions` (validation sits outside its `try`): no
`ValidationError` is returned. -/
theorem getTransactions_min_gt_max_throw_counterexample :
    getTransactions mockApiConfig false
      { dateFrom := some "2024-02-30", minAmount := some 500, maxAmount := some 100 } [] =
      .thrown "RangeError: Invalid time value" := by
  with_unfolding_all rfl

theorem validate_ok_eq {p : GetTransactionsParams} {errs : List String}
    (hv : validateGetTransactionsParams p = .ok errs) :
    ∃ l2 l3, checkDateFrom p = .ok l2 ∧ checkDateTo p = .ok l3 ∧
      errs = validatePaginationParams p ++ l2 ++ l3 ++ checkDateOrder p ++
        checkBasClass p ++ checkAccountId p ++ checkSearch p ++ checkDebitCredit p ++
        checkMinAmountInteger p ++ checkMaxAmountInteger p ++ checkMinMax p := by
  unfold validateGetTransactionsParams at hv
  rcases h2 : checkDateFrom p with e | l2 <;> rw [h2] at hv
  · simp [Bind.bind, Except.bind] at hv
  · rcases h3 : checkDateTo p with e | l3 <;> rw [h3] at hv
    · simp [Bind.bind, Except.bind] at hv
    · simp only [Bind.bind, Except.bind, pure, Except.pure, Except.ok.injEq] at hv
      exact ⟨l2, l3, rfl, rfl, hv.symm⟩

/-- **C7 (amended).**  For every request with both amount bounds present
and `minAmount > maxAmount`, provided the validator itself does not throw
(i.e. `validateGetTransactionsParams` returns a list of messages) and no
simulated fault fires, `getTransactions` returns a `VALIDATION_ERROR`
containing the min/max message among the collected violations — and the
result is the same for every cache, so no filtering of cached
transactions is performed. -/
theorem getTransactions_min_gt_max_validation_error (p : GetTransactionsParams)
    (cache : List Transaction) (m M : ℚ) (hm : p.minAmount = some m)
    (hM : p.maxAmount = some M) (hlt : M < m) (errs : List String)
    (hv : validateGetTransactionsParams p = .ok errs) :
    "minAmount cannot be greater than maxAmount" ∈ errs ∧
    getTransactions mockApiConfig false p cache =
      .apiError .VALIDATION_ERROR (joinComma errs) := by
  have hmm : checkMinMax p = ["minAmount cannot be greater than maxAmount"] := by
    unfold checkMinMax
    rw [hm, hM]
    simp [hlt]
  obtain ⟨l2, l3, h2, h3, herrs⟩ := validate_ok_eq hv
  have hmem : "minAmount cannot be greater than maxAmount" ∈ errs := by
    rw [herrs, hmm]
    simp
  refine ⟨hmem, ?_⟩
  have hnil : errs ≠ [] := List.ne_nil_of_mem hmem
  unfold getTransactions
  rw [hv]
  rcases errs with _ | ⟨e0, rest⟩
  · exact absurd rfl hnil
  · simp

/-- **C7 witness**: `minAmount = 500 > maxAmount = 100`, no date filters. -/
theorem getTransactions_min_gt_max_validation_error_witness :
    "minAmount cannot be greater than maxAmount" ∈
      (["minAmount cannot be greater than maxAmount"] : List String) ∧
    getTransactions mockApiConfig false
      { minAmount := some 500, maxAmount := some 100 } [] =
      .apiError .VALIDATION_ERROR
        (joinComma ["minAmount cannot be greater than maxAmount"]) :=
  getTransactions_min_gt_max_validation_error
    { minAmount := some 500, maxAmount := some 100 } [] 500 100 rfl rfl
    (by norm_num) _ (by with_unfolding_all rfl)

/-! ## C8: page size handling -/

/-- A request that only sets `size`. -/
def sizeParams (q : ℚ) : GetTransactionsParams := { size := some q }

/-- **C8 counterexample.**  A requested size of 5 is not raised to 10 and
served: `getTransactions` rejects it with a `ValidationError`, and the
slicing layer itself (`paginateTransactions`, reachable without
validation) has no lower clamp — it uses 5 as-is. -/
theorem pageSize_not_lower_clamped_counterexample :
    getTransactions mockApiConfig false (sizeParams 5) [] =
      .apiError .VALIDATION_ERROR "Page size must be between 10 and 100" ∧
    (paginateTransactions mockApiConfig [] (sizeParams 5)).pagination.pageSize = 5 := by
  constructor
  · with_unfolding_all rfl
  · with_unfolding_all rfl

theorem validate_sizeParams (q : ℚ) :
    validateGetTransactionsParams (sizeParams q) =
      .ok (if ¬ isInteger q = true ∨ q < 10 ∨ q > 100
           then ["Page size must be between 10 and 100"] else []) := by
  unfold validateGetTransactionsParams checkDateFrom checkDateTo checkDateOrder
    checkBasClass checkAccountId checkSearch checkDebitCredit checkMinAmountInteger
    checkMaxAmountInteger checkMinMax validatePaginationParams truthyStr sizeParams
  simp [Bind.bind, Except.bind, pure, Except.pure]

/-- **C8 (amended).**  A specified page size outside the validated range
(non-integer, below 10 or above 100) is rejected with a
`ValidationError`, not clamped and served; a size inside `[10, 100]` is
used exactly as requested; an unspecified size falls back to the default
50. -/
theorem pageSize_bounds_validated_not_clamped (q : ℚ) (cache : List Transaction) :
    (¬ (isInteger q = true ∧ 10 ≤ q ∧ q ≤ 100) →
      getTransactions mockApiConfig false (sizeParams q) cache =
        .apiError .VALIDATION_ERROR "Page size must be between 10 and 100") ∧
    ((isInteger q = true ∧ 10 ≤ q ∧ q ≤ 100) →
      respPageSize (getTransactions mockApiConfig false (sizeParams q) cache) = some q) ∧
    respPageSize (getTransactions mockApiConfig false {} cache) = some 50 := by
  refine ⟨?_, ?_, ?_⟩
  · intro hbad
    have hcond : ¬ isInteger q = true ∨ q < 10 ∨ q > 100 := by
      by_contra hc
      push_neg at hc
      exact hbad ⟨hc.1, hc.2.1, hc.2.2⟩
    unfold getTransactions
    rw [validate_sizeParams q, if_pos hcond]
    simp [joinComma, String.intercalate, String.intercalate.go]
  · rintro ⟨hint, h10, h100⟩
    have hcond : ¬ (¬ isInteger q = true ∨ q < 10 ∨ q > 100) := by
      push_neg
      exact ⟨hint, h10, h100⟩
    unfold getTransactions
    rw [validate_sizeParams q, if_neg hcond]
    have hq0 : ¬ q = 0 := by intro h; rw [h] at h10; norm_num at h10
    simp only [List.isEmpty_nil, if_true, respPageSize]
    unfold paginateTransactions
    simp only [sizeParams, mockApiConfig]
    rw [if_neg hq0]
    simp [min_eq_left h100]
  · unfold getTransactions
    rw [show validateGetTransactionsParams {} = .ok [] from by with_unfolding_all rfl]
    simp only [List.isEmpty_nil, if_true, respPageSize]
    unfold paginateTransactions
    norm_num [mockApiConfig]

/-- **C8 witness**: size 5 is rejected, size 20 is served as 20, no size
is served as 50. -/
theorem pageSize_bounds_validated_not_clamped_witness :
    getTransactions mockApiConfig false (sizeParams 5) [] =
      .apiError .VALIDATION_ERROR "Page size must be between 10 and 100" ∧
    respPageSize (getTransactions mockApiConfig false (sizeParams 20) []) = some 20 ∧
    respPageSize (getTransactions mockApiConfig false {} []) = some 50 :=
  ⟨(pageSize_bounds_validated_not_clamped 5 []).1 (by norm_num [isInteger]),
   (pageSize_bounds_validated_not_clamped 20 []).2.1 (by norm_num [isInteger]),
   (pageSize_bounds_validated_not_clamped 20 []).2.2⟩

/-! ## C4: concatenating all pages reconstructs the filtered set -/

/-- A request that sets a page index and a page size. -/
def pageParams (p s : ℕ) : GetTransactionsParams :=
  { page := some (p : ℚ), size := some (s : ℚ) }

theorem jsTrunc_natCast (n : ℕ) : jsTrunc (n : ℚ) = n := by
  unfold jsTrunc
  rw [if_neg (not_lt.mpr (by positivity))]
  exact Int.floor_natCast n

theorem jsSliceZ_chunk (l : List α) (a s : ℕ) :
    jsSliceZ l (a : ℤ) (min ((a : ℤ) + s) l.length) = (l.drop a).take s := by
  simp only [jsSliceZ]
  have h1 : ¬ ((a : ℤ) < 0) := by omega
  have h0 : ¬ (min ((a : ℤ) + (s : ℤ)) (l.length : ℤ) < 0) := by omega
  rw [if_neg h1, if_neg h0]
  have e1 : min (min ((a : ℤ) + (s : ℤ)) ((l.length : ℤ))) ((l.length : ℤ)) =
      min ((a : ℤ) + (s : ℤ)) ((l.length : ℤ)) := min_eq_left (min_le_right _ _)
  rw [e1]
  rcases le_or_lt a l.length with hle | hlt
  · have e2 : min ((a : ℤ)) ((l.length : ℤ)) = (a : ℤ) := by omega
    have e3 : (min ((a : ℤ) + (s : ℤ)) ((l.length : ℤ)) - (a : ℤ)).toNat =
        min (a + s) l.length - a := by omega
    rw [e2, e3, Int.toNat_natCast]
    rw [List.take_eq_take, List.length_drop]
    omega
  · have e2 : min ((a : ℤ)) ((l.length : ℤ)) = (l.length : ℤ) := by omega
    rw [e2, Int.toNat_natCast, List.drop_length, List.drop_eq_nil_of_le (by omega)]
    simp

theorem drop_take_chunks_flatten (l : List α) (s : ℕ) (k : ℕ) :
    ((List.range k).map fun p => (l.drop (p * s)).take s).flatten = l.take (k * s) := by
  induction k with
  | zero => simp
  | succ k ih =>
    rw [List.range_succ, List.map_append, List.flatten_append, ih]
    simp only [List.map_cons, List.map_nil, List.flatten_cons, List.flatten_nil,
      List.append_nil]
    rw [← List.take_add, Nat.succ_mul]

theorem paginate_pageSize_eq (txs : List Transaction) (s p : ℕ) (h10 : 10 ≤ s)
    (h100 : s ≤ 100) :
    (paginateTransactions mockApiConfig txs (pageParams p s)).pagination.pageSize = (s : ℚ) := by
  unfold paginateTransactions pageParams mockApiConfig
  have hs0 : ¬ ((s : ℚ)) = 0 := by
    have : s ≠ 0 := by omega
    exact_mod_cast this
  simp only [Option.getD_some]
  rw [if_neg hs0]
  exact min_eq_left (by exact_mod_cast h100)

theorem paginate_totalPages_eq (txs : List Transaction) (s p : ℕ) (h10 : 10 ≤ s)
    (h100 : s ≤ 100) :
    (paginateTransactions mockApiConfig txs (pageParams p s)).pagination.totalPages =
      ⌈(txs.length : ℚ) / (s : ℚ)⌉ := by
  unfold paginateTransactions pageParams mockApiConfig
  have hs0 : ¬ ((s : ℚ)) = 0 := by
    have : s ≠ 0 := by omega
    exact_mod_cast this
  simp only [Option.getD_some]
  rw [if_neg hs0]
  rw [min_eq_left (by exact_mod_cast h100)]

theorem paginate_transactions_slice (txs : List Transaction) (s p : ℕ) (h10 : 10 ≤ s)
    (h100 : s ≤ 100) :
    (paginateTransactions mockApiConfig txs (pageParams p s)).transactions =
      (txs.drop (p * s)).take s := by
  unfold paginateTransactions pageParams mockApiConfig
  have hs0 : ¬ ((s : ℚ)) = 0 := by
    have : s ≠ 0 := by omega
    exact_mod_cast this
  simp only [Option.getD_some]
  rw [if_neg hs0]
  rw [min_eq_left (by exact_mod_cast h100)]
  have hstart : (p : ℚ) * (s : ℚ) = ((p * s : ℕ) : ℚ) := by push_cast; ring
  rw [hstart]
  have hstop : min (((p * s : ℕ) : ℚ) + (s : ℚ)) ((txs.length : ℚ)) =
      ((min (p * s + s) txs.length : ℕ) : ℚ) := by
    push_cast
    rfl
  rw [hstop, jsTrunc_natCast, jsTrunc_natCast]
  have hcast : ((min (p * s + s) txs.length : ℕ) : ℤ) =
      min (((p * s : ℕ) : ℤ) + ((s : ℕ) : ℤ)) ((txs.length : ℤ)) := by omega
  rw [hcast]
  exact jsSliceZ_chunk txs (p * s) s

/-- **C4.**  For every filtered transaction set and every page size the
engine accepts (integers 10–100), the pages 0 … totalPages−1 produced by
`paginateTransactions` concatenate to exactly the filtered set — no
duplicates, no omissions — where `totalPages = ⌈totalCount / size⌉` is
also what every page response reports. -/
theorem paginateTransactions_pages_reconstruct_filtered_set (txs : List Transaction)
    (s : ℕ) (h10 : 10 ≤ s) (h100 : s ≤ 100) (k : ℕ)
    (hk : (k : ℤ) = ⌈(txs.length : ℚ) / (s : ℚ)⌉) :
    (∀ p : ℕ, (paginateTransactions mockApiConfig txs (pageParams p s)).pagination.totalPages
        = (k : ℤ)) ∧
    ((List.range k).map fun p =>
        (paginateTransactions mockApiConfig txs (pageParams p s)).transactions).flatten = txs := by
  constructor
  · intro p
    rw [paginate_totalPages_eq txs s p h10 h100, ← hk]
  · have hmap : ((List.range k).map fun p =>
        (paginateTransactions mockApiConfig txs (pageParams p s)).transactions) =
        (List.range k).map fun p => (txs.drop (p * s)).take s := by
      apply List.map_congr_left
      intro p _
      exact paginate_transactions_slice txs s p h10 h100
    rw [hmap, drop_take_chunks_flatten]
    have hs : (0 : ℚ) < (s : ℚ) := by
      have : 0 < s := by omega
      exact_mod_cast this
    have h1 : ((txs.length : ℚ)) / (s : ℚ) ≤ (k : ℚ) := by
      have hkr : ((k : ℤ) : ℚ) = ((⌈(txs.length : ℚ) / (s : ℚ)⌉ : ℤ) : ℚ) := by
        exact_mod_cast hk
      calc ((txs.length : ℚ)) / (s : ℚ) ≤ ((⌈(txs.length : ℚ) / (s : ℚ)⌉ : ℤ) : ℚ) :=
            Int.le_ceil _
        _ = (k : ℚ) := by rw [← hkr]; push_cast; ring
    have h2 : (txs.length : ℚ) ≤ (k : ℚ) * (s : ℚ) := (div_le_iff₀ hs).mp h1
    have h3 : txs.length ≤ k * s := by exact_mod_cast h2
    exact List.take_of_length_le h3

/-- Two fixed transactions for the concrete pagination check. -/
def txW1 : Transaction :=
  ⟨"t1", 19000, "d1", 100, "SEK", "a-1", acctW, .OPERATING_EXPENSES, "6110", .DEBIT,
   none, none, "R1", "c1", "u1"⟩

def txW2 : Transaction :=
  { txW1 with id := "t2", date := 18999, amount := 300 }

/-- **C4 witness**: two transactions, size 10, a single page. -/
theorem paginateTransactions_pages_reconstruct_filtered_set_witness :
    ((List.range 1).map fun p =>
        (paginateTransactions mockApiConfig [txW1, txW2] (pageParams p 10)).transactions).flatten
      = [txW1, txW2] ∧
    (paginateTransactions mockApiConfig [txW1, txW2]
        (pageParams 0 10)).pagination.totalPages = ((1 : ℕ) : ℤ) := by
  have hk : ((1 : ℕ) : ℤ) = ⌈(([txW1, txW2] : List Transaction).length : ℚ) / ((10 : ℕ) : ℚ)⌉ := by
    have : ⌈(([txW1, txW2] : List Transaction).length : ℚ) / ((10 : ℕ) : ℚ)⌉ = (1 : ℤ) := by
      rw [Int.ceil_eq_iff]
      norm_num
    rw [this]
    norm_num
  have h := paginateTransactions_pages_reconstruct_filtered_set [txW1, txW2] 10
    (by norm_num) (by norm_num) 1 hk
  exact ⟨h.2, h.1 0⟩

end Findash
